import Mathlib

/-!
Shallow embedding of the `aria2` package of `dxcweb/go-aria2`
(file `aria2/aria2.go`), covering the process supervisor (`Aria2`,
`Start`, `Stop`, `newDaemon`), the port probe (`findAvailablePort`),
the JSON-RPC control client (`Call` and its request/response
envelopes), and the download monitor loop (`monitorDownload`).

External effects (binding a socket, spawning the subprocess, the HTTP
exchange, the aria2 engine's task states) are modelled as explicit
oracle inputs: functions and event lists that record what the
environment answered at each interaction point.  Everything the Go
code itself decides is translated directly from the source.
-/

set_option maxRecDepth 10000

/-- Element of the `files` list of a status response (`type File` in
`aria2/aria2.go`): a single produced file path. -/
structure File where
  path : String
deriving DecidableEq, Repr

/-- Mirror of `type DownloadStatus` in `aria2/aria2.go`: the decoded
result of an `aria2.tellStatus` call.  All Go fields are kept; byte
counts and speeds are numeric strings exactly as in the source. -/
structure DownloadStatus where
  gid : String
  status : String
  totalLength : String
  completedLength : String
  downloadSpeed : String
  pieceLength : String
  numPieces : String
  connections : String
  errorCode : String
  errorMessage : String
  files : List File
deriving DecidableEq, Repr

/-- Convenience constructor for a `DownloadStatus` whose progress
fields are empty, as in the mock statuses used throughout the
development; only the fields the monitor loop inspects vary. -/
def mkStatus (status errorCode errorMessage : String) (files : List File) : DownloadStatus :=
  ⟨"gid1", status, "", "", "", "", "", "", errorCode, errorMessage, files⟩

/-- Outcome of one `a.TellStatus(gid)` call as seen by the monitor
loop: either a decoded status or the error `TellStatus` returned. -/
inductive TellResult where
  | ok (st : DownloadStatus)
  | err (e : String)
deriving DecidableEq, Repr

/-- One firing of the `select` in `monitorDownload`: either the
1-second ticker fired (and `TellStatus` answered `r`), or the
lifecycle context's `Done` channel fired. -/
inductive PollEvent where
  | tick (r : TellResult)
  | ctxDone
deriving DecidableEq, Repr

/-- Result of the monitor loop.  `done p` is `return p, nil`;
`fail m` is `return "", error(m)`; `panicIndex` is the runtime panic
raised by `status.Files[0]` when the files slice is empty (no value
is returned at all); `pending` means the supplied event trace was
exhausted while the loop was still polling. -/
inductive MonitorOutcome where
  | done (path : String)
  | fail (msg : String)
  | panicIndex
  | pending
deriving DecidableEq, Repr

/-- Full record of a run of the monitor loop: its outcome, the
sequence of statuses passed to the caller's callback (in order), and
the number of `TellStatus` queries performed. -/
structure MonitorRun where
  outcome : MonitorOutcome
  callbacks : List DownloadStatus
  queries : Nat
deriving DecidableEq, Repr

/-- Terminal check of one loop iteration, the `switch status.Status`
in `monitorDownload`: `"complete"` returns `status.Files[0].Path`
(panicking when `files` is empty), `"error"` returns the error built
by `fmt.Errorf("下载出错: %s", status.ErrorMessage)` — note the
format string renders only `ErrorMessage` — and every other status
falls through and keeps polling (`none`). -/
def monitorStep (st : DownloadStatus) : Option MonitorOutcome :=
  if st.status = "complete" then
    some (match st.files with
      | [] => .panicIndex
      | f :: _ => .done f.path)
  else if st.status = "error" then
    some (.fail ("下载出错: " ++ st.errorMessage))
  else
    none

/-- The `for { select { ... } }` loop of `monitorDownload`, driven by
the trace of select firings.  A `ctxDone` firing returns the error
`"ctx上下文已取消"`; a tick whose `TellStatus` failed returns that
error; otherwise the callback is invoked on the status and the
terminal check decides whether to return or continue. -/
def monitorDownload : List PollEvent → MonitorRun
  | [] => ⟨.pending, [], 0⟩
  | .ctxDone :: _ => ⟨.fail "ctx上下文已取消", [], 0⟩
  | .tick (.err e) :: _ => ⟨.fail e, [], 1⟩
  | .tick (.ok st) :: rest =>
    match monitorStep st with
    | some out => ⟨out, [st], 1⟩
    | none =>
      let r := monitorDownload rest
      ⟨r.outcome, st :: r.callbacks, r.queries + 1⟩

/-- Mirror of `findAvailablePort` in `aria2/aria2.go`.  The oracle
`free p` answers whether `net.Listen("tcp", ":p")` succeeds — the
availability of each port at call time.  The Go function recurses
with no bound; `fuel` is an artificial recursion budget added only to
make the function total, and the theorems assume a free port exists
within it, in which case the `fuel = 0` fallback (which returns the
current port unprobed) is never reached. -/
def findAvailablePort (free : Nat → Bool) : Nat → Nat → Nat
  | 0, port => port
  | fuel + 1, port => if free port then port else findAvailablePort free fuel (port + 1)

/-- Supervisor state, the mutable fields of `type Aria2` relevant to
control flow: `port` is the probed RPC port; `running` the readiness
flag; `cmdSet` whether `a.cmd` is non-nil; `processStarted` whether
`a.cmd.Process` is non-nil (a spawn happened for the current `cmd`);
`processLive` whether that subprocess is currently alive;
`ctxCancelled` whether the lifecycle context's cancel function has
ever been invoked. -/
structure Aria2 where
  port : Nat
  running : Bool
  cmdSet : Bool
  processStarted : Bool
  processLive : Bool
  ctxCancelled : Bool
deriving DecidableEq, Repr

/-- Mirror of `newDaemon`: probes a port starting from 6800 and
returns a fresh, stopped supervisor with a fresh (uncancelled)
lifecycle context. -/
def newDaemon (free : Nat → Bool) (fuel : Nat) : Aria2 :=
  { port := findAvailablePort free fuel 6800
    running := false
    cmdSet := false
    processStarted := false
    processLive := false
    ctxCancelled := false }

/-- Mirror of `buildArgs`: the fixed argument list passed to the
subprocess, with the probed port spliced into `--rpc-listen-port`. -/
def Aria2.buildArgs (port : Nat) : List String :=
  ["--rpc-listen-port=" ++ toString port,
   "--disk-cache=64M",
   "--always-resume=false",
   "--max-resume-failure-tries=0",
   "--enable-rpc=true",
   "--rpc-listen-all=true",
   "--continue=true",
   "--max-connection-per-server=16",
   "--min-split-size=1M",
   "--split=64",
   "--optimize-concurrent-downloads=true",
   "--log-level=error",
   "--http-accept-gzip=true",
   "--content-disposition-default-utf8=true",
   "--check-certificate=false"]

/-- URL every `Call` posts to, `fmt.Sprintf("http://127.0.0.1:%d/jsonrpc", a.port)`. -/
def Aria2.callUrl (port : Nat) : String :=
  "http://127.0.0.1:" ++ toString port ++ "/jsonrpc"

/-- Outcome of the `waitForRPC` readiness loop: a dial succeeded
(`ready`), the 10-second timeout elapsed (`timeout`), or the
lifecycle context's `Done` channel fired (`cancelled`). -/
inductive RpcOutcome where
  | ready
  | timeout
  | cancelled
deriving DecidableEq, Repr

/-- Environment answers consumed by one `Start` call: the result of
`ExtractBinary()` (path or error), the result of `a.cmd.Start()`
(`none` = spawned, `some e` = spawn error), and the outcome of the
readiness wait (only consulted when the spawn succeeded). -/
structure StartEnv where
  extract : Except String String
  launch : Option String
  rpc : RpcOutcome
deriving Repr

/-- Errors a `Start` call can return, tagged by the return site in
the Go source: `"aria2c已经运行"`, the `ExtractBinary` error,
`"aria2c 进程启动失败: %v"`, and `"RPC service failed to start: %w"`
wrapping the `waitForRPC` error respectively. -/
inductive StartError where
  | alreadyRunning
  | extractFailed (e : String)
  | launchFailed (e : String)
  | rpcFailed (e : String)
deriving DecidableEq, Repr

/-- Observable interactions with the environment recorded by a step:
a subprocess launch with its argument list, or an HTTP contact of a
control URL by `Call`. -/
inductive Event where
  | launched (args : List String)
  | contacted (url : String)
deriving DecidableEq, Repr

/-- Result of a `Start` call: the supervisor state on return, the
returned error (if any), and the environment events it performed. -/
structure StartResult where
  state : Aria2
  err : Option StartError
  events : List Event
deriving DecidableEq, Repr

/-- Mirror of `Aria2.Start`.  Under the lock: fail if already
running; extract the binary; install a fresh cancellable context and
a fresh `exec.CommandContext` (so `cmdSet` becomes true and
`ctxCancelled` false before the spawn is attempted); attempt the
spawn with `buildArgs`; on success wait for RPC readiness, and only
on `ready` set `running := true`.  Note that neither failure branch
after the spawn kills the subprocess. -/
def Aria2.Start (s : Aria2) (env : StartEnv) : StartResult :=
  if s.running then ⟨s, some .alreadyRunning, []⟩
  else
    match env.extract with
    | .error e => ⟨s, some (.extractFailed e), []⟩
    | .ok _path =>
      let s1 : Aria2 :=
        { s with ctxCancelled := false, cmdSet := true
                 processStarted := false, processLive := false }
      match env.launch with
      | some e => ⟨s1, some (.launchFailed e), [.launched (Aria2.buildArgs s.port)]⟩
      | none =>
        let s2 : Aria2 := { s1 with processStarted := true, processLive := true }
        match env.rpc with
        | .ready => ⟨{ s2 with running := true }, none, [.launched (Aria2.buildArgs s.port)]⟩
        | .timeout =>
          ⟨s2, some (.rpcFailed "等待RPC服务超时"), [.launched (Aria2.buildArgs s.port)]⟩
        | .cancelled =>
          ⟨s2, some (.rpcFailed "ctx上下文已取消"), [.launched (Aria2.buildArgs s.port)]⟩

/-- Mirror of `Aria2.Stop`.  Under the lock it first sets
`a.running = false`, then, whenever `a.cmd != nil && a.cmd.Process != nil`
— true for any previously spawned command, even one whose process
has already exited and been reaped — it calls `a.cmd.Process.Kill()`
and returns its error if it fails (Go's `os.Process.Kill` returns
`os.ErrProcessDone` once the process has been waited on).  The
oracle `killErr` is that kill outcome.  Note that the stored cancel
function is never invoked, so `ctxCancelled` is untouched. -/
def Aria2.Stop (s : Aria2) (killErr : Option String) : Aria2 × Option String :=
  let s1 : Aria2 := { s with running := false }
  if s1.cmdSet && s1.processStarted then
    match killErr with
    | some e => (s1, some ("failed to kill aria2c process: " ++ e))
    | none => ({ s1 with processLive := false }, none)
  else (s1, none)

/-- Mirror of `type jsonRPCRequest`, the request envelope of `Call`. -/
structure jsonRPCRequest where
  jsonrpc : String
  method : String
  params : List String
  id : String
deriving DecidableEq, Repr

/-- Mirror of `type jsonRPCError`, the error object of a response. -/
structure jsonRPCError where
  code : Int
  message : String
deriving DecidableEq, Repr

/-- Mirror of `type jsonRPCResponse`: the decoded response envelope;
`result` is the raw payload (`json.RawMessage`) as a string. -/
structure jsonRPCResponse where
  jsonrpc : String
  result : String
  error : Option jsonRPCError
  id : String
deriving DecidableEq, Repr

/-- The request `Call` builds: protocol tag `"2.0"`, the method and
params as given, and `ID: strconv.FormatInt(time.Now().UnixNano(), 10)`
— the decimal rendering of the current high-resolution timestamp,
supplied here as the oracle `nowUnixNano`. -/
def Aria2.callRequest (method : String) (params : List String) (nowUnixNano : Int) : jsonRPCRequest :=
  { jsonrpc := "2.0", method := method, params := params, id := toString nowUnixNano }

/-- What the environment answered at the single failure-or-success
point of one `Call` exchange, one constructor per early-return site
of the Go function: `json.Marshal`, `http.NewRequest`,
`httpClient.Do`, `io.ReadAll`, `json.Unmarshal`, or a successfully
decoded envelope. -/
inductive CallIO where
  | marshalError (e : String)
  | newRequestError (e : String)
  | httpError (e : String)
  | readError (e : String)
  | unmarshalError (e : String)
  | response (r : jsonRPCResponse)
deriving DecidableEq, Repr

/-- Structured view of the errors `Call` returns: every failure to
complete the exchange is a transport error carrying the wrapped
message the Go code builds with `fmt.Errorf`, and a decoded envelope
whose `error` field is set becomes a protocol error carrying that
object's code and message. -/
inductive CallError where
  | transport (msg : String)
  | protocol (code : Int) (message : String)
deriving DecidableEq, Repr

/-- Rendering of a `CallError` as the Go error string: transport
errors are already rendered, and a protocol error is formatted by
`fmt.Errorf("JSON-RPC错误 %d: %s", code, message)`. -/
def CallError.render : CallError → String
  | .transport m => m
  | .protocol c m => "JSON-RPC错误 " ++ toString c ++ ": " ++ m

/-- The decision structure of `Call` after the request is built,
mapping each exchange outcome to the value `Call` returns.  Each
transport branch reproduces the source's wrapped error string; a
decoded envelope with an error object yields the protocol error; and
otherwise `rpcResp.Result` is returned unchanged.  The envelope's
`id` field is never consulted. -/
def Aria2.CallHandle : CallIO → Except CallError String
  | .marshalError e => .error (.transport ("序列化请求失败: " ++ e))
  | .newRequestError e => .error (.transport ("创建HTTP请求失败: " ++ e))
  | .httpError e => .error (.transport ("HTTP请求失败: " ++ e))
  | .readError e => .error (.transport ("读取响应失败: " ++ e))
  | .unmarshalError e => .error (.transport ("解析响应失败: " ++ e))
  | .response r =>
    match r.error with
    | some er => .error (.protocol er.code er.message)
    | none => .ok r.result

/-- Trace form of `Call`: the body is straight-line (one HTTP
exchange, early returns, no loop), so it consumes exactly the first
outcome of the available exchange-outcome trace and performs exactly
one exchange.  The empty-trace case is unreachable: `Call` always
performs its single exchange. -/
def Aria2.CallOnTrace : List CallIO → Except CallError String × Nat
  | [] => (.error (.transport ""), 0)
  | io :: _ => (Aria2.CallHandle io, 1)

/-- One operation applied to the shared singleton supervisor: a
`Start` attempt with its environment answers, a `Stop` with its kill
outcome, or a `Call` (whose request/exchange content is irrelevant
to the state — only the contacted URL is recorded). -/
inductive Op where
  | start (env : StartEnv)
  | stop (killErr : Option String)
  | call
deriving Repr

/-- Effect of one operation on the supervisor state together with
the environment events it performs; `Call` posts to
`callUrl a.port` and leaves the state untouched. -/
def stepOp (s : Aria2) : Op → Aria2 × List Event
  | .start env => let r := Aria2.Start s env; (r.state, r.events)
  | .stop k => ((Aria2.Stop s k).1, [])
  | .call => (s, [.contacted (Aria2.callUrl s.port)])

/-- Run of a sequence of operations against the supervisor,
accumulating the events of every step in order. -/
def runOps : Aria2 → List Op → Aria2 × List Event
  | s, [] => (s, [])
  | s, op :: ops =>
    let r := stepOp s op
    let rest := runOps r.1 ops
    (rest.1, r.2 ++ rest.2)

/-- Checks that an environment event used the given port: a launch
passed exactly `buildArgs port`, a contact targeted exactly
`callUrl port`. -/
def eventUses (port : Nat) : Event → Bool
  | .launched args => decide (args = Aria2.buildArgs port)
  | .contacted u => decide (u = Aria2.callUrl port)

/-- Availability oracle for concrete examples: exactly port 6802 is
free, 6800 and 6801 are taken. -/
def freeOnly6802 : Nat → Bool := fun n => n == 6802

/-- Availability oracle for concrete examples: every port is free,
so the probe returns its base port 6800 at once. -/
def allPortsFree : Nat → Bool := fun _ => true

/-- Supervisor state after a successful `Start` from the freshly
constructed daemon: running, with a live spawned subprocess. -/
def startedDaemon : Aria2 :=
  (Aria2.Start (newDaemon allPortsFree 1) ⟨.ok "aria2c", none, .ready⟩).state

/-- Supervisor state after a full `Start`/`Stop` cycle: stopped, the
subprocess killed, but the command and process handles retained. -/
def stoppedAfterCycle : Aria2 := (Aria2.Stop startedDaemon none).1

/-- A `"complete"` status that reports no file at all, as when the
engine's response carries an empty `files` array. -/
def completeNoFiles : DownloadStatus := mkStatus "complete" "" "" []

/-- A `"removed"` status: the task was removed from the engine. -/
def removedStatus : DownloadStatus := mkStatus "removed" "" "" []

/-- An `"error"` status carrying both an error code and an error
message, as the engine reports for a failed download. -/
def errorStatus9 : DownloadStatus := mkStatus "error" "9" "connection refused" []

/-! ## Helper lemmas -/

/-- Stop always writes `running := false` first, on every branch. -/
theorem Aria2.Stop_running (s : Aria2) (k : Option String) :
    ((Aria2.Stop s k).1).running = false := by
  simp [Aria2.Stop]
  split <;> (try split) <;> simp

/-- Stop never touches the lifecycle context: the stored cancel
function is not invoked on any branch. -/
theorem Aria2.Stop_ctx (s : Aria2) (k : Option String) :
    ((Aria2.Stop s k).1).ctxCancelled = s.ctxCancelled := by
  simp [Aria2.Stop]
  split <;> (try split) <;> simp

/-- No single operation ever cancels the lifecycle context: `Start`
installs a fresh uncancelled context, and neither `Stop` nor `Call`
invokes the stored cancel function. -/
theorem stepOp_ctx (s : Aria2) (op : Op) (h : s.ctxCancelled = false) :
    ((stepOp s op).1).ctxCancelled = false := by
  cases op with
  | start env =>
    simp [stepOp, Aria2.Start]
    split
    · exact h
    · split
      · exact h
      · split
        · simp
        · split <;> simp
  | stop k => simpa [stepOp] using Aria2.Stop_ctx s k ▸ h
  | call => simpa [stepOp] using h

/-- Over any run of operations, an uncancelled context stays
uncancelled. -/
theorem runOps_ctx (ops : List Op) (s : Aria2) (h : s.ctxCancelled = false) :
    ((runOps s ops).1).ctxCancelled = false := by
  induction ops generalizing s with
  | nil => simpa [runOps] using h
  | cons op ops ih => simpa [runOps] using ih _ (stepOp_ctx s op h)

/-- No single operation mutates the chosen port. -/
theorem stepOp_port (s : Aria2) (op : Op) : ((stepOp s op).1).port = s.port := by
  cases op with
  | start env =>
    simp [stepOp, Aria2.Start]
    split
    · rfl
    · split
      · rfl
      · split
        · rfl
        · split <;> rfl
  | stop k =>
    simp [stepOp, Aria2.Stop]
    split <;> (try split) <;> rfl
  | call => rfl

/-- Every event a single operation emits uses the state's own port:
launches pass `buildArgs s.port` and calls contact `callUrl s.port`. -/
theorem stepOp_events (s : Aria2) (op : Op) :
    ((stepOp s op).2).all (eventUses s.port) = true := by
  cases op with
  | start env =>
    simp [stepOp, Aria2.Start]
    split
    · simp
    · split
      · simp
      · split
        · simp [eventUses]
        · split <;> simp [eventUses]
  | stop k => rfl
  | call => simp [stepOp, eventUses]

/-- Over any run of operations the port is invariant and every
emitted event uses it. -/
theorem runOps_port (ops : List Op) (s : Aria2) :
    ((runOps s ops).1).port = s.port ∧
    ((runOps s ops).2).all (eventUses s.port) = true := by
  induction ops generalizing s with
  | nil => simp [runOps]
  | cons op ops ih =>
    have hp := stepOp_port s op
    have he := stepOp_events s op
    have ihr := ih (stepOp s op).1
    refine ⟨by simp [runOps]; rw [ihr.1, hp], ?_⟩
    simp [runOps, List.all_append]
    exact ⟨by simpa using he, by simpa [hp] using ihr.2⟩

/-! ## C1 — complete status: first file path, empty files list -/

/-- C1 counterexample.  When the polled status is `"complete"` but
the `files` list is empty, the loop evaluates `status.Files[0].Path`
on an empty slice: it panics (index out of range).  No error value —
in particular no `NoOutputFileError` — is returned, refuting the
claim that an empty files list fails with `NoOutputFileError` rather
than any other outcome. -/
theorem monitorDownload_complete_no_files_panics :
    (monitorDownload [.tick (.ok completeNoFiles)]).outcome = .panicIndex := by
  decide

/-- C1 (amended).  For every polled task whose status is
`"complete"`, the loop returns the first produced file path with a
nil error and stops after that single query, provided the files list
is non-empty; when the files list is empty the unchecked index
panics instead of producing any error value. -/
theorem monitorDownload_complete_first_file :
    (∀ (st : DownloadStatus) (f : File) (fs : List File) (rest : List PollEvent),
      st.status = "complete" → st.files = f :: fs →
      monitorDownload (.tick (.ok st) :: rest) = ⟨.done f.path, [st], 1⟩) ∧
    (∀ (st : DownloadStatus) (rest : List PollEvent),
      st.status = "complete" → st.files = [] →
      (monitorDownload (.tick (.ok st) :: rest)).outcome = .panicIndex) := by
  constructor
  · intro st f fs rest h1 h2
    simp [monitorDownload, monitorStep, h1, h2]
  · intro st rest h1 h2
    simp [monitorDownload, monitorStep, h1, h2]

/-- Witness for `monitorDownload_complete_first_file` at the spec's
own end-to-end example: a complete status reporting
`/tmp/file.bin`. -/
theorem monitorDownload_complete_first_file_witness :
    monitorDownload [.tick (.ok (mkStatus "complete" "" "" [⟨"/tmp/file.bin"⟩]))]
      = ⟨.done "/tmp/file.bin", [mkStatus "complete" "" "" [⟨"/tmp/file.bin"⟩]], 1⟩ ∧
    (monitorDownload [.tick (.ok (mkStatus "complete" "0" "" []))]).outcome = .panicIndex :=
  ⟨monitorDownload_complete_first_file.1 _ ⟨"/tmp/file.bin"⟩ [] [] rfl rfl,
   monitorDownload_complete_first_file.2 _ [] rfl rfl⟩

/-! ## C2 — Stop does not cancel the lifecycle context -/

/-- C2.  The supervisor's stored context-cancel function is never
invoked: `Stop` only clears `running` and kills the process, and no
other operation cancels the context either, so across every sequence
of `Start`/`Stop`/`Call` operations the shared lifecycle context
remains uncancelled.  Consequently the `ctx.Done()` branches of
`monitorDownload` and `waitForRPC` can never fire because of a
`Stop`: stopping the supervisor does not unblock in-flight polling
loops or readiness waits with `CancelledError`, contradicting the
claim.  The dead cancellation machinery (the stored `cancel`, the
two `Done` branches, `exec.CommandContext`) indicates the intent the
spec describes, while the code never calls `a.cancel`. -/
theorem stop_never_cancels_lifecycle_context :
    (∀ (s : Aria2) (k : Option String),
      ((Aria2.Stop s k).1).ctxCancelled = s.ctxCancelled) ∧
    (∀ (free : Nat → Bool) (fuel : Nat) (ops : List Op),
      ((runOps (newDaemon free fuel) ops).1).ctxCancelled = false) := by
  refine ⟨Aria2.Stop_ctx, ?_⟩
  intro free fuel ops
  exact runOps_ctx ops _ rfl

/-! ## C3 — failed Start: state Stopped but a leaked live process -/

/-- C3 counterexample.  A `Start` whose spawn succeeds but whose
readiness wait times out returns the readiness error with
`running = false` — yet the already-launched subprocess is still
alive and owned (`processLive = true`): the failure branch after
`cmd.Start()` neither kills the process nor clears the handle, so
`running == false` does not imply "no live subprocess". -/
theorem start_readiness_timeout_leaves_live_process :
    (Aria2.Start (newDaemon allPortsFree 1) ⟨.ok "aria2c", none, .timeout⟩).err
      = some (.rpcFailed "等待RPC服务超时") ∧
    ((Aria2.Start (newDaemon allPortsFree 1) ⟨.ok "aria2c", none, .timeout⟩).state).running = false ∧
    ((Aria2.Start (newDaemon allPortsFree 1) ⟨.ok "aria2c", none, .timeout⟩).state).processLive = true := by
  decide

/-- C3 (amended).  Every failing `Start` from the stopped state
leaves `running = false` (the supervisor still reports Stopped and
`Start` may be retried), and a spawn failure leaves no live
subprocess; but a readiness-wait failure (timeout or context
cancellation) leaves the already-spawned subprocess alive, so the
invariant `running == false → no live subprocess` does not survive
that path. -/
theorem start_failure_leaves_not_running :
    (∀ (s : Aria2) (env : StartEnv), s.running = false →
      (Aria2.Start s env).err.isSome = true →
      ((Aria2.Start s env).state).running = false) ∧
    (∀ (s : Aria2) (env : StartEnv) (e : String),
      (Aria2.Start s env).err = some (.launchFailed e) →
      ((Aria2.Start s env).state).processLive = false) ∧
    (∀ (s : Aria2) (env : StartEnv) (e : String),
      (Aria2.Start s env).err = some (.rpcFailed e) →
      ((Aria2.Start s env).state).processLive = true) := by
  refine ⟨?_, ?_, ?_⟩
  · intro s env h h2
    obtain ⟨ext, launch, rpc⟩ := env
    cases ext <;> cases launch <;> cases rpc <;> simp_all [Aria2.Start]
  · intro s env e h
    obtain ⟨ext, launch, rpc⟩ := env
    by_cases hr : s.running = true <;>
      cases ext <;> cases launch <;> cases rpc <;> simp_all [Aria2.Start]
  · intro s env e h
    obtain ⟨ext, launch, rpc⟩ := env
    by_cases hr : s.running = true <;>
      cases ext <;> cases launch <;> cases rpc <;> simp_all [Aria2.Start]

/-- Witness for `start_failure_leaves_not_running`: a spawn failure
and a cancelled readiness wait, each from the fresh daemon. -/
theorem start_failure_leaves_not_running_witness :
    ((Aria2.Start (newDaemon allPortsFree 1) ⟨.ok "aria2c", some "exec failure", .ready⟩).state).running = false ∧
    ((Aria2.Start (newDaemon allPortsFree 1) ⟨.ok "aria2c", some "exec failure", .ready⟩).state).processLive = false ∧
    ((Aria2.Start (newDaemon allPortsFree 1) ⟨.ok "aria2c", none, .cancelled⟩).state).processLive = true :=
  ⟨start_failure_leaves_not_running.1 _ _ (by decide) (by decide),
   start_failure_leaves_not_running.2.1 _ _ "exec failure" (by decide),
   start_failure_leaves_not_running.2.2 _ _ "ctx上下文已取消" (by decide)⟩

/-! ## C4 — which states actually stop the polling loop -/

/-- C4 counterexample.  The claim's terminal set is
`{complete, error, removed}` with no further `QueryStatus` calls once
a terminal status is observed; but after observing `"removed"` on
the first tick the loop keeps polling — two ticks of `"removed"`
perform two `TellStatus` queries, where the claim requires one. -/
theorem monitorDownload_removed_keeps_polling :
    (monitorDownload [.tick (.ok removedStatus), .tick (.ok removedStatus)]).queries = 2 ∧
    (monitorDownload [.tick (.ok removedStatus), .tick (.ok removedStatus)]).outcome
      = .pending := by
  decide

/-- C4 (amended).  The loop's terminal statuses are exactly
`"complete"` and `"error"`: on a tick observing one of those it
returns with exactly that one query, and on any other status —
including `"removed"` — it performs that query and continues
polling the rest of the trace. -/
theorem monitorDownload_terminal_states :
    (∀ (st : DownloadStatus) (rest : List PollEvent),
      st.status = "complete" ∨ st.status = "error" →
      (monitorDownload (.tick (.ok st) :: rest)).queries = 1) ∧
    (∀ (st : DownloadStatus) (rest : List PollEvent),
      st.status ≠ "complete" → st.status ≠ "error" →
      (monitorDownload (.tick (.ok st) :: rest)).queries
        = (monitorDownload rest).queries + 1) := by
  constructor
  · intro st rest h
    rcases h with h | h <;> simp [monitorDownload, monitorStep, h]
  · intro st rest h1 h2
    simp [monitorDownload, monitorStep, h1, h2]

/-- Witness for `monitorDownload_terminal_states`: an error tick
stops at one query; a waiting tick followed by nothing yields two
pending-side queries bookkeeping. -/
theorem monitorDownload_terminal_states_witness :
    (monitorDownload [.tick (.ok (mkStatus "error" "1" "boom" []))]).queries = 1 ∧
    (monitorDownload [.tick (.ok (mkStatus "waiting" "" "" [])), .tick (.ok (mkStatus "active" "" "" []))]).queries
      = (monitorDownload [.tick (.ok (mkStatus "active" "" "" []))]).queries + 1 :=
  ⟨monitorDownload_terminal_states.1 _ [] (Or.inr rfl),
   monitorDownload_terminal_states.2 _ _ (by decide) (by decide)⟩

/-! ## C5 — error status: what the returned error contains -/

/-- C5 counterexample.  For a status with `errorCode = "9"` and
`errorMessage = "connection refused"`, the loop returns the error
string `"下载出错: connection refused"`, built by
`fmt.Errorf("下载出错: %s", status.ErrorMessage)`.  The character
`'9'` does not occur in it at all, so the returned error does not
contain the engine's exact `errorCode`, refuting that part of the
claim. -/
theorem monitorDownload_error_omits_errorCode :
    (monitorDownload [.tick (.ok errorStatus9)]).outcome
      = .fail "下载出错: connection refused" ∧
    '9' ∉ "下载出错: connection refused".data := by
  decide

/-- C5 (amended).  For every polled task whose status is `"error"`,
the loop returns an empty path with the error
`"下载出错: " ++ errorMessage` — containing the exact
`errorMessage` but not the `errorCode` — after exactly that one
query, so no further polling occurs. -/
theorem monitorDownload_error_returns_message :
    ∀ (st : DownloadStatus) (rest : List PollEvent), st.status = "error" →
      monitorDownload (.tick (.ok st) :: rest)
        = ⟨.fail ("下载出错: " ++ st.errorMessage), [st], 1⟩ := by
  intro st rest h
  simp [monitorDownload, monitorStep, h]

/-- Witness for `monitorDownload_error_returns_message` at a status
whose engine message is `"boom"`. -/
theorem monitorDownload_error_returns_message_witness :
    monitorDownload [.tick (.ok (mkStatus "error" "2" "boom" [])), .ctxDone]
      = ⟨.fail "下载出错: boom", [mkStatus "error" "2" "boom" []], 1⟩ :=
  monitorDownload_error_returns_message _ _ rfl

/-! ## C6 — Stop idempotence and termination failure -/

/-- C6 counterexample.  After a full successful `Start` followed by
a successful `Stop`, the supervisor is stopped but the command and
process handles are still retained (`Stop` never clears `a.cmd`).
A second `Stop` therefore attempts `a.cmd.Process.Kill()` again, and
on a process that has already exited and been reaped the kill fails
(Go returns `os.ErrProcessDone`), so the second `Stop` returns an
error — refuting "calling Stop when already stopped returns
successfully (no error)". -/
theorem stop_when_stopped_can_return_error :
    stoppedAfterCycle.running = false ∧
    (Aria2.Stop stoppedAfterCycle (some "os: process already finished")).2
      = some "failed to kill aria2c process: os: process already finished" := by
  decide

/-- C6 (amended).  `Stop` marks `running = false` before returning
on every path — even when the kill fails — and returns nil whenever
no command handle is retained; but whenever a previously spawned
handle is retained it re-attempts the kill and propagates a kill
failure as its own error, even when the supervisor was already
stopped.  State is nonetheless left stopped in every case. -/
theorem stop_marks_stopped_regardless :
    (∀ (s : Aria2) (k : Option String), ((Aria2.Stop s k).1).running = false) ∧
    (∀ (s : Aria2) (k : Option String), s.cmdSet = false → (Aria2.Stop s k).2 = none) ∧
    (∀ (s : Aria2) (e : String), s.cmdSet = true → s.processStarted = true →
      (Aria2.Stop s (some e)).2 = some ("failed to kill aria2c process: " ++ e)) := by
  refine ⟨Aria2.Stop_running, ?_, ?_⟩
  · intro s k h
    simp [Aria2.Stop, h]
  · intro s e h1 h2
    simp [Aria2.Stop, h1, h2]

/-- Witness for `stop_marks_stopped_regardless`: a stop with a
failing kill still reports stopped; a stop of the fresh daemon (no
handle) returns nil; a stop of the started daemon with a failing
kill returns the wrapped kill error. -/
theorem stop_marks_stopped_regardless_witness :
    ((Aria2.Stop startedDaemon (some "kill failed")).1).running = false ∧
    (Aria2.Stop (newDaemon allPortsFree 1) none).2 = none ∧
    (Aria2.Stop startedDaemon (some "kill failed")).2
      = some "failed to kill aria2c process: kill failed" :=
  ⟨stop_marks_stopped_regardless.1 _ _,
   stop_marks_stopped_regardless.2.1 _ _ (by decide),
   stop_marks_stopped_regardless.2.2 _ _ (by decide) (by decide)⟩

/-! ## C7 — correlation ids -/

/-- C7 counterexample.  `Call` sends the id `"12345"` (the decimal
UnixNano oracle value), yet a response carrying the unrelated id
`"999"` and no error object is accepted and its result returned:
the code never compares `rpcResp.ID` with the id it sent, refuting
"a response is accepted as the answer to a call only when the id it
carries equals the id that was sent". -/
theorem call_accepts_mismatched_response_id :
    (Aria2.callRequest "aria2.tellStatus" ["gid1"] 12345).id = "12345" ∧
    Aria2.CallHandle (.response ⟨"2.0", "\"result\"", none, "999"⟩) = .ok "\"result\"" ∧
    ("12345" : String) ≠ "999" :=
  ⟨rfl, rfl, by decide⟩

/-- C7 (amended).  Every `Call` sends a fresh correlation id — the
decimal rendering of the current UnixNano timestamp — but the
response's id is never checked: any decoded envelope without an
error object is accepted with its result, and the handling of a
response is entirely independent of the id it carries. -/
theorem call_id_fresh_but_unchecked :
    (∀ (m : String) (ps : List String) (n : Int),
      (Aria2.callRequest m ps n).id = toString n) ∧
    (∀ r : jsonRPCResponse, r.error = none →
      Aria2.CallHandle (.response r) = .ok r.result) ∧
    (∀ (r : jsonRPCResponse) (id1 id2 : String),
      Aria2.CallHandle (.response { r with id := id1 })
        = Aria2.CallHandle (.response { r with id := id2 })) := by
  refine ⟨fun m ps n => rfl, ?_, ?_⟩
  · intro r h
    simp [Aria2.CallHandle, h]
  · intro r id1 id2
    cases r
    rfl

/-- Witness for `call_id_fresh_but_unchecked`: a request stamped at
nano time 170000, and a response (id `"42"`) accepted with its
result. -/
theorem call_id_fresh_but_unchecked_witness :
    (Aria2.callRequest "aria2.addUri" ["https://example.test/file.bin"] 170000).id = "170000" ∧
    Aria2.CallHandle (.response ⟨"2.0", "\"gid9\"", none, "42"⟩) = .ok "\"gid9\"" :=
  ⟨call_id_fresh_but_unchecked.1 _ _ 170000,
   call_id_fresh_but_unchecked.2.1 _ rfl⟩

/-! ## C8 — Call error taxonomy and single exchange -/

/-- C8.  `Call` is a single request/response exchange with no retry:
every way the exchange can fail to complete (marshal, request
construction, HTTP transport, body read, malformed body) yields a
transport error wrapping the source's message; a decoded envelope
carrying an error object yields a protocol error with exactly that
object's code and message; otherwise the raw result payload is
returned unchanged; and the trace form consumes exactly one
exchange outcome regardless of what it is. -/
theorem call_error_taxonomy_single_exchange :
    (∀ e, Aria2.CallHandle (.marshalError e) = .error (.transport ("序列化请求失败: " ++ e))) ∧
    (∀ e, Aria2.CallHandle (.newRequestError e) = .error (.transport ("创建HTTP请求失败: " ++ e))) ∧
    (∀ e, Aria2.CallHandle (.httpError e) = .error (.transport ("HTTP请求失败: " ++ e))) ∧
    (∀ e, Aria2.CallHandle (.readError e) = .error (.transport ("读取响应失败: " ++ e))) ∧
    (∀ e, Aria2.CallHandle (.unmarshalError e) = .error (.transport ("解析响应失败: " ++ e))) ∧
    (∀ (r : jsonRPCResponse) (er : jsonRPCError), r.error = some er →
      Aria2.CallHandle (.response r) = .error (.protocol er.code er.message)) ∧
    (∀ r : jsonRPCResponse, r.error = none →
      Aria2.CallHandle (.response r) = .ok r.result) ∧
    (∀ (io : CallIO) (rest : List CallIO),
      Aria2.CallOnTrace (io :: rest) = (Aria2.CallHandle io, 1)) := by
  refine ⟨fun e => rfl, fun e => rfl, fun e => rfl, fun e => rfl, fun e => rfl, ?_, ?_, fun io rest => rfl⟩
  · intro r er h
    simp [Aria2.CallHandle, h]
  · intro r h
    simp [Aria2.CallHandle, h]

/-- Witness for `call_error_taxonomy_single_exchange`: a response
whose envelope carries error object `{code 1, "Unauthorized"}`, and
one carrying a result. -/
theorem call_error_taxonomy_single_exchange_witness :
    Aria2.CallHandle (.response ⟨"2.0", "", some ⟨1, "Unauthorized"⟩, "7"⟩)
      = .error (.protocol 1 "Unauthorized") ∧
    Aria2.CallHandle (.response ⟨"2.0", "\"gid7\"", none, "7"⟩) = .ok "\"gid7\"" :=
  ⟨call_error_taxonomy_single_exchange.2.2.2.2.2.1 _ ⟨1, "Unauthorized"⟩ rfl,
   call_error_taxonomy_single_exchange.2.2.2.2.2.2.1 _ rfl⟩

/-! ## C9 — the port probe returns the least free port -/

/-- C9.  Whenever some port `q ≥ p` is free and lies within the
recursion budget, `findAvailablePort` starting at `p` terminates on
a port that is at least `p`, is free at probe time, and below which
every probed candidate down to `p` was taken — i.e. it returns the
smallest free port `≥ p`, probing in ascending order. -/
theorem findAvailablePort_least_free (free : Nat → Bool) :
    ∀ (fuel p q : Nat), p ≤ q → q ≤ p + fuel → free q = true →
      p ≤ findAvailablePort free fuel p ∧
      free (findAvailablePort free fuel p) = true ∧
      ∀ x, p ≤ x → x < findAvailablePort free fuel p → free x = false := by
  intro fuel
  induction fuel with
  | zero =>
    intro p q hpq hqb hfq
    have hq : p = q := by omega
    subst hq
    refine ⟨Nat.le_refl _, by simpa [findAvailablePort] using hfq, ?_⟩
    intro x hx1 hx2
    simp [findAvailablePort] at hx2
    omega
  | succ fuel ih =>
    intro p q hpq hqb hfq
    by_cases hfp : free p = true
    · refine ⟨by simp [findAvailablePort, hfp], by simp [findAvailablePort, hfp], ?_⟩
      intro x hx1 hx2
      simp [findAvailablePort, hfp] at hx2
      omega
    · have hfp' : free p = false := by simpa using hfp
      have hne : p ≠ q := fun h => by rw [h] at hfp'; rw [hfp'] at hfq; cases hfq
      have hrec := ih (p + 1) q (by omega) (by omega) hfq
      have heq : findAvailablePort free (fuel + 1) p = findAvailablePort free fuel (p + 1) := by
        simp [findAvailablePort, hfp']
      rw [heq]
      refine ⟨by omega, hrec.2.1, ?_⟩
      intro x hx1 hx2
      rcases Nat.eq_or_lt_of_le hx1 with h | h
      · rw [← h]; exact hfp'
      · exact hrec.2.2 x (by omega) hx2

/-- Witness for `findAvailablePort_least_free` with base port 6800
when 6800 and 6801 are taken and 6802 is free: the probe lands on a
free port no smaller than the base, and 6801 is indeed reported
taken. -/
theorem findAvailablePort_least_free_witness :
    6800 ≤ findAvailablePort freeOnly6802 5 6800 ∧
    freeOnly6802 (findAvailablePort freeOnly6802 5 6800) = true ∧
    freeOnly6802 6801 = false :=
  ⟨(findAvailablePort_least_free freeOnly6802 5 6800 6802 (by decide) (by decide) (by decide)).1,
   (findAvailablePort_least_free freeOnly6802 5 6800 6802 (by decide) (by decide) (by decide)).2.1,
   (findAvailablePort_least_free freeOnly6802 5 6800 6802 (by decide) (by decide) (by decide)).2.2
     6801 (by decide) (by decide)⟩

/-! ## C10 — the port is chosen once and used everywhere -/

/-- C10.  The control port is computed exactly once, by the probe in
`newDaemon`; across every sequence of `Start`/`Stop`/`Call`
operations the state's `port` field still equals that initially
probed value, every subprocess launch passed exactly
`buildArgs` of that port (so the same `--rpc-listen-port` value),
and every `Call` contacted exactly `callUrl` of that port. -/
theorem port_chosen_once_used_everywhere :
    ∀ (free : Nat → Bool) (fuel : Nat) (ops : List Op),
      ((runOps (newDaemon free fuel) ops).1).port = findAvailablePort free fuel 6800 ∧
      ((runOps (newDaemon free fuel) ops).2).all
        (eventUses (findAvailablePort free fuel 6800)) = true := by
  intro free fuel ops
  exact runOps_port ops (newDaemon free fuel)
